import Mathlib

/-!
Verification development for the `rocksdb-memtable-switching` decider
(`src/decider/main.py`).  The Python code is shallowly embedded: Python
floats are modelled as exact rationals, fallible code returns `Option` or
`Except`, the zmq/optuna session is modelled as a deterministic function of
the engine's scripted replies and of an oracle supplying the optimizer's
random draws.
-/

namespace MemtableDecider

/-- Kinds of Python exceptions raised on the code paths modelled here.
`valueError` stands for the `ValueError` raised by `float(...)` on a bad
literal or by tuple unpacking of the wrong arity; `zeroDivisionError` for
the `ZeroDivisionError` raised by division by zero.  The source defines no
error type of its own (in particular no `UndefinedWorkloadError`). -/
inductive PyError
  | valueError
  | zeroDivisionError
deriving DecidableEq, Repr

/-- Equality of `Except` values is decidable when it is on both sides.
(Core Lean does not provide this instance.) -/
instance {ε α : Type} [DecidableEq ε] [DecidableEq α] : DecidableEq (Except ε α) :=
  fun a b =>
    match a, b with
    | .error e, .error f =>
        if h : e = f then .isTrue (by rw [h]) else .isFalse (by intro hc; cases hc; exact h rfl)
    | .error _, .ok _ => .isFalse (by intro hc; cases hc)
    | .ok _, .error _ => .isFalse (by intro hc; cases hc)
    | .ok x, .ok y =>
        if h : x = y then .isTrue (by rw [h]) else .isFalse (by intro hc; cases hc; exact h rfl)

/-- Split a character list on a one-character separator, with Python
`str.split(sep)` semantics (the separators used on this wire are all single
characters): the empty string yields one empty group, and consecutive
separators yield empty groups. -/
def splitOnChar (sep : Char) : List Char → List (List Char)
  | [] => [[]]
  | c :: cs =>
    match splitOnChar sep cs with
    | [] => if c = sep then [[], []] else [[c]]
    | g :: gs => if c = sep then [] :: g :: gs else (c :: g) :: gs

/-- Value of a list of decimal digit characters. -/
def digitsVal (cs : List Char) : Nat :=
  cs.foldl (fun a c => a * 10 + (c.toNat - 48)) 0

/-- All characters are decimal digits. -/
def isDigits (cs : List Char) : Bool :=
  cs.all (fun c => c.isDigit)

/-- Model of Python `float(s)` restricted to the plain decimal literals this
wire protocol carries: an optional leading minus sign, then digits with at
most one decimal point (digits required on at least one side of the point).
Strings outside this form (empty string, letters, commas, ...) make Python
`float` raise `ValueError`; here they yield `none`. -/
def parseNum (cs : List Char) : Option ℚ :=
  let (neg, body) : Bool × List Char :=
    match cs with
    | '-' :: rest => (true, rest)
    | _ => (false, cs)
  let val? : Option ℚ :=
    match splitOnChar '.' body with
    | [ip] =>
        if ip.length > 0 && isDigits ip then
          some (digitsVal ip)
        else none
    | [ip, fp] =>
        if (ip.length > 0 || fp.length > 0) && isDigits ip && isDigits fp then
          some ((digitsVal ip : ℚ) + (digitsVal fp : ℚ) / 10 ^ fp.length)
        else none
    | _ => none
  val?.map (fun v => if neg then -v else v)

/-- The `Workload` record of `src/decider/main.py`: six operation counts and
six per-operation latency fields, all Python floats (modelled as ℚ). -/
structure Workload where
  inserts : ℚ
  updates : ℚ
  point_deletes : ℚ
  range_deletes : ℚ
  point_queries : ℚ
  range_queries : ℚ
  insert_time : ℚ
  update_time : ℚ
  point_delete_time : ℚ
  range_delete_time : ℚ
  point_query_time : ℚ
  range_query_time : ℚ
deriving DecidableEq, Repr

/-- Parse a list of exactly six numeric fields (Python
`(a, b, c, d, e, f) = map(float, parts)`: any parse failure or an arity
other than six raises `ValueError`, modelled as `none`). -/
def parse6 (parts : List (List Char)) : Option (ℚ × ℚ × ℚ × ℚ × ℚ × ℚ) :=
  match parts.mapM parseNum with
  | some [a, b, c, d, e, f] => some (a, b, c, d, e, f)
  | _ => none

/-- `Workload.from_str` (main.py lines 40-59): split the message on `";"`
into exactly a counts segment and a latencies segment; the counts segment is
six comma-separated floats in the order (inserts, updates, point_deletes,
range_deletes, point_queries, range_queries); the latencies segment is six
colon-separated floats, one single number per operation, in the same order.
Any mismatch raises (here: `none`). -/
def Workload.from_str (s : String) : Option Workload :=
  match splitOnChar ';' s.toList with
  | [w, l] =>
    match parse6 (splitOnChar ',' w), parse6 (splitOnChar ':' l) with
    | some (i, u, pd, rd, pq, rq), some (it, ut, pdt, rdt, pqt, rqt) =>
        some ⟨i, u, pd, rd, pq, rq, it, ut, pdt, rdt, pqt, rqt⟩
    | _, _ => none
  | _ => none

/-- `Workload.total_latency` (main.py lines 72-80). -/
def Workload.total_latency (w : Workload) : ℚ :=
  w.insert_time + w.update_time + w.point_delete_time +
    w.range_delete_time + w.point_query_time + w.range_query_time

/-- The `total_ops` sum computed inside `to_workload_percentages`
(main.py line 62), in the source's summand order. -/
def Workload.total_ops (w : Workload) : ℚ :=
  w.inserts + w.updates + w.point_queries + w.range_queries +
    w.point_deletes + w.range_deletes

/-- Round-half-to-even to the nearest integer, as Python `round` does
(idealised over exact rationals). -/
def rndHalfEven (q : ℚ) : ℤ :=
  if q - ⌊q⌋ < 1 / 2 then ⌊q⌋
  else if 1 / 2 < q - ⌊q⌋ then ⌊q⌋ + 1
  else if ⌊q⌋ % 2 = 0 then ⌊q⌋ else ⌊q⌋ + 1

/-- Python `round(x, 1)`: round to one decimal place, half to even. -/
def round1 (q : ℚ) : ℚ := (rndHalfEven (10 * q) : ℚ) / 10

/-- `Workload.to_workload_percentages` (main.py lines 61-70): each count is
divided by `total_ops` and rounded to one decimal; the result tuple is in
the source's return order (inserts, updates, point_queries, range_queries,
point_deletes, range_deletes).  When `total_ops = 0` the first division
raises `ZeroDivisionError`. -/
def Workload.to_workload_percentages (w : Workload) :
    Except PyError (ℚ × ℚ × ℚ × ℚ × ℚ × ℚ) :=
  if w.total_ops = 0 then .error .zeroDivisionError
  else .ok (round1 (w.inserts / w.total_ops), round1 (w.updates / w.total_ops),
            round1 (w.point_queries / w.total_ops), round1 (w.range_queries / w.total_ops),
            round1 (w.point_deletes / w.total_ops), round1 (w.range_deletes / w.total_ops))

/-- Sum of the six entries of a percentage tuple. -/
def psum (p : ℚ × ℚ × ℚ × ℚ × ℚ × ℚ) : ℚ :=
  p.1 + p.2.1 + p.2.2.1 + p.2.2.2.1 + p.2.2.2.2.1 + p.2.2.2.2.2

/-- One random draw of the external optuna sampler for a single trial:
six draws in `[0, 1]` for the six `suggest_float` calls, one index draw for
`suggest_categorical` and one draw for `suggest_int`.  The sampler is a
black box, so the session model is parametrised by an arbitrary function
`Nat → OracleDraw` from trial numbers to draws. -/
structure OracleDraw where
  d1 : ℚ
  d2 : ℚ
  d3 : ℚ
  d4 : ℚ
  d5 : ℚ
  d6 : ℚ
  catDraw : Nat
  intDraw : Nat
deriving DecidableEq, Repr

/-- `trial.suggest_float(name, lo, hi)`: the sampler returns a value in
`[lo, hi]`, modelled as `lo + d * (hi - lo)` for a draw `d ∈ [0, 1]`. -/
def suggest_float (lo hi d : ℚ) : ℚ := lo + d * (hi - lo)

/-- `trial.suggest_categorical(name, choices)`: the sampler returns one of
the choices, modelled by reducing the draw modulo the number of choices. -/
def suggest_categorical (choices : List String) (d : Nat) : String :=
  choices.getD (d % choices.length) ""

/-- `trial.suggest_int(name, lo, hi)`: the sampler returns an integer in
`[lo, hi]`, modelled by reducing the draw modulo the range size. -/
def suggest_int (lo hi : ℤ) (d : Nat) : ℤ :=
  lo + ((d % (hi - lo + 1).toNat : ℕ) : ℤ)

/-- The fixed memtable enumeration passed to `suggest_categorical`
(main.py lines 129-134). -/
def memtableChoices : List String :=
  ["vector", "skiplist", "hash-linklist", "hash-skiplist"]

/-- A parameter value stored in a trial (Python trial params are a dict of
floats/ints/strings). -/
inductive ParamValue
  | num (q : ℚ)
  | str (s : String)
deriving DecidableEq, Repr

/-- An optuna distribution declared for a parameter. -/
inductive Dist
  | floatD (lo hi : ℚ)
  | intD (lo hi : ℤ)
  | catD (choices : List String)
deriving DecidableEq, Repr

/-- One trial in the optuna study history: its number, objective value,
parameter assignment, declared distributions, and whether its state is
`TrialState.COMPLETE`. -/
structure StudyTrial where
  number : Nat
  value : ℚ
  params : List (String × ParamValue)
  distributions : List (String × Dist)
  complete : Bool
deriving DecidableEq, Repr

/-- The concrete values suggested during one `Objective.__call__`. -/
structure TrialParams where
  inserts : ℚ
  updates : ℚ
  point_deletes : ℚ
  range_deletes : ℚ
  point_queries : ℚ
  range_queries : ℚ
  memtable : String
  memtable_size : ℤ
deriving DecidableEq, Repr

/-- The suggested values of one `Objective.__call__` (main.py lines
120-137): six floats pinned by passing the same percentage as both bounds,
the categorical memtable choice, and the size exponent drawn from
`suggest_int("memtable_size", 24, 28)` — the size is suggested
unconditionally, the `if memtable == "vector":` guard in the source is
commented out.  The percentage tuple is in the order returned by
`to_workload_percentages`. -/
def suggestParams (p : ℚ × ℚ × ℚ × ℚ × ℚ × ℚ) (d : OracleDraw) : TrialParams :=
  { inserts := suggest_float p.1 p.1 d.d1
    updates := suggest_float p.2.1 p.2.1 d.d2
    point_deletes := suggest_float p.2.2.2.2.1 p.2.2.2.2.1 d.d3
    range_deletes := suggest_float p.2.2.2.2.2 p.2.2.2.2.2 d.d4
    point_queries := suggest_float p.2.2.1 p.2.2.1 d.d5
    range_queries := suggest_float p.2.2.2.1 p.2.2.2.1 d.d6
    memtable := suggest_categorical memtableChoices d.catDraw
    memtable_size := suggest_int 24 28 d.intDraw }

/-- The distributions declared by the `suggest_*` calls of one
`Objective.__call__`, in source order (main.py lines 122-137): each of the
six percentage dimensions is a float distribution whose lower and upper
bounds are both the observed percentage, then the categorical memtable
distribution, then the integer size distribution over `[24, 28]`. -/
def askDistributions (p : ℚ × ℚ × ℚ × ℚ × ℚ × ℚ) : List (String × Dist) :=
  [("inserts", .floatD p.1 p.1),
   ("updates", .floatD p.2.1 p.2.1),
   ("point_deletes", .floatD p.2.2.2.2.1 p.2.2.2.2.1),
   ("range_deletes", .floatD p.2.2.2.2.2 p.2.2.2.2.2),
   ("point_queries", .floatD p.2.2.1 p.2.2.1),
   ("range_queries", .floatD p.2.2.2.1 p.2.2.2.1),
   ("memtable", .catD memtableChoices),
   ("memtable_size", .intD 24 28)]

/-- The parameter assignment of a live (non-preloaded) trial. -/
def liveParams (tp : TrialParams) : List (String × ParamValue) :=
  [("inserts", .num tp.inserts),
   ("updates", .num tp.updates),
   ("point_deletes", .num tp.point_deletes),
   ("range_deletes", .num tp.range_deletes),
   ("point_queries", .num tp.point_queries),
   ("range_queries", .num tp.range_queries),
   ("memtable", .str tp.memtable),
   ("memtable_size", .num (tp.memtable_size : ℚ))]

/-- The configuration message sent to the engine (main.py lines 136-144):
`f"{memtable};{memtable_config}"` where `memtable_config` is
`str(2 ** memtable_size)`. -/
def configMessage (tp : TrialParams) : String :=
  tp.memtable ++ ";" ++ toString (2 ^ tp.memtable_size.toNat)

/-- One row of `./data.csv`, restricted to the columns the preloading code
reads (main.py lines 183-197). -/
structure CsvRow where
  value : ℚ
  params_inserts : ℚ
  params_point_queries : ℚ
  params_memtable : String
  params_memtable_size : ℤ
deriving DecidableEq, Repr

/-- The `FrozenTrial` built from row `i` of `./data.csv` (main.py lines
184-219): a COMPLETE trial whose params are only `inserts`,
`point_queries`, `memtable`, `memtable_size` (the other four percentage
params are commented out) with full-range `FloatDistribution(0., 1.)` for
the two percentage params. -/
def preloadTrial (i : Nat) (r : CsvRow) : StudyTrial :=
  { number := i
    value := r.value
    params := [("inserts", .num r.params_inserts),
               ("point_queries", .num r.params_point_queries),
               ("memtable", .str r.params_memtable),
               ("memtable_size", .num (r.params_memtable_size : ℚ))]
    distributions := [("inserts", .floatD 0 1),
                      ("point_queries", .floatD 0 1),
                      ("memtable", .catD memtableChoices),
                      ("memtable_size", .intD 24 28)]
    complete := true }

/-- All trials preloaded from `./data.csv`, one per row, numbered from 0. -/
def preloadTrials (rows : List CsvRow) : List StudyTrial :=
  rows.enum.map (fun ir => preloadTrial ir.1 ir.2)

/-- Observable I/O and study events of a session, in order.
`appendedDurable` is the per-`tell` append to a durable log that §4.5 of
the spec describes; the corresponding `output.write`/`output.flush` lines
of the source (main.py lines 180, 230-231) are commented out, so no code
path emits it.  `exported` is the terminal
`study.trials_dataframe().to_csv(...)` (main.py line 235). -/
inductive Event
  | sent (msg : String)
  | told (number : Nat) (params : TrialParams) (value : ℚ)
  | appendedDurable (rec : String)
  | exported (trials : List StudyTrial)
deriving DecidableEq, Repr

/-- How a session ended.
`cleanEnd`: the loop received `"end"`, broke out, closed the socket and
wrote the csv export.  `initAborted`: an exception inside
`Objective.__init__` was caught by `run_workload`, which returned early
(no study, no export).  `crashed e`: an exception inside the ask/tell loop
propagated out of `run_workload`; nothing in `__main__` catches it, so the
process dies.  `blocked`: a `recv` was reached with no scripted engine
message left, modelling an indefinitely blocking receive. -/
inductive SessionStop
  | cleanEnd
  | initAborted
  | crashed (e : PyError)
  | blocked
deriving DecidableEq, Repr

/-- Record of one `study.ask()` + `Objective.__call__` parameter
declaration: the workload `self.workload` held when the call began, the
distributions it declared and the values it suggested. -/
structure AskRecord where
  observed : Workload
  dists : List (String × Dist)
  params : TrialParams
deriving DecidableEq, Repr

/-- Result of running the ask/tell loop of `run_workload`. -/
structure LoopOut where
  hist : List StudyTrial
  events : List Event
  asks : List AskRecord
  stop : SessionStop
  remaining : List String
deriving DecidableEq, Repr

/-- The `while not done` loop of `run_workload` (main.py lines 222-235)
together with `Objective.__call__` (lines 115-158).  Each iteration:
`study.ask()` draws a trial numbered `hist.length`; `__call__` computes the
current workload's percentages (a zero-total workload raises
`ZeroDivisionError`, uncaught), suggests the pinned percentages, the
memtable and the size, sends the configuration, then blocks on `recv`.
An `"end"` reply returns `(0.0, True)`: the loop breaks without telling,
the socket is closed and the study history is exported.  Any other reply is
parsed by `Workload.from_str` (a parse failure raises `ValueError`,
uncaught); on success the new workload's `total_latency` is told to the
study and the loop continues. -/
def sessionLoop (oracle : Nat → OracleDraw) (script : List String) (w : Workload)
    (hist : List StudyTrial) (evs : List Event) (asks : List AskRecord) : LoopOut :=
  match w.to_workload_percentages with
  | .error e => ⟨hist, evs, asks, .crashed e, script⟩
  | .ok pcts =>
    let d := oracle hist.length
    let tp := suggestParams pcts d
    let a : AskRecord := ⟨w, askDistributions pcts, tp⟩
    let evs1 := evs ++ [.sent (configMessage tp)]
    match script with
    | [] => ⟨hist, evs1, asks ++ [a], .blocked, []⟩
    | msg :: rest =>
      if msg = "end" then
        ⟨hist, evs1 ++ [.exported hist], asks ++ [a], .cleanEnd, rest⟩
      else
        match Workload.from_str msg with
        | none => ⟨hist, evs1, asks ++ [a], .crashed .valueError, rest⟩
        | some w2 =>
          let metric := w2.total_latency
          let told : StudyTrial :=
            ⟨hist.length, metric, liveParams tp, askDistributions pcts, true⟩
          sessionLoop oracle rest w2 (hist ++ [told])
            (evs1 ++ [.told hist.length tp metric]) (asks ++ [a])

/-- Result of one `run_workload` call: the study name received in
`Objective.__init__` (if any), the study history at the moment of the first
`study.ask()` (if the loop was reached), and the loop's outputs. -/
structure SessionResult where
  name : Option String
  historyAtFirstAsk : Option (List StudyTrial)
  hist : List StudyTrial
  events : List Event
  asks : List AskRecord
  stop : SessionStop
deriving DecidableEq, Repr

/-- `run_workload` (main.py lines 161-235).  `Objective.__init__` receives
the study name and the first telemetry message, sending nothing; a
termination token in either position, or an unparseable first telemetry
message, raises an exception that `run_workload` catches, returning early.
Otherwise the study is created, `./data.csv` is preloaded into the study
history, and the ask/tell loop runs.  The function also returns the part of
the engine script that the session did not consume. -/
def run_workload (rows : List CsvRow) (oracle : Nat → OracleDraw)
    (script : List String) : SessionResult × List String :=
  match script with
  | [] => (⟨none, none, [], [], [], .blocked⟩, [])
  | m0 :: rest0 =>
    if m0 = "end" then (⟨none, none, [], [], [], .initAborted⟩, rest0)
    else
      match rest0 with
      | [] => (⟨some m0, none, [], [], [], .blocked⟩, [])
      | m1 :: rest1 =>
        if m1 = "end" then (⟨some m0, none, [], [], [], .initAborted⟩, rest1)
        else
          match Workload.from_str m1 with
          | none => (⟨some m0, none, [], [], [], .initAborted⟩, rest1)
          | some w0 =>
            let h0 := preloadTrials rows
            let out := sessionLoop oracle rest1 w0 h0 [] []
            (⟨some m0, some h0, out.hist, out.events, out.asks, out.stop⟩, out.remaining)

/-- The `while True: run_workload()` outer loop of `__main__` (main.py
lines 238-240), with an explicit session-count fuel so it can be stated in
Lean.  After a session that ended cleanly or whose init aborted, a fresh
session starts on the remaining script; an uncaught loop exception or a
forever-blocking receive ends the process, so no further session runs. -/
def runMain (rows : List CsvRow) (oracle : Nat → OracleDraw) :
    Nat → List String → List SessionResult
  | 0, _ => []
  | fuel + 1, script =>
    let res := run_workload rows oracle script
    match res.1.stop with
    | .cleanEnd => res.1 :: runMain rows oracle fuel res.2
    | .initAborted => res.1 :: runMain rows oracle fuel res.2
    | .crashed _ => [res.1]
    | .blocked => [res.1]

/-- Is an event a durable per-tell log append? -/
def isDurableAppend : Event → Bool
  | .appendedDurable _ => true
  | _ => false

/-- Is an event the terminal csv export? -/
def isExport : Event → Bool
  | .exported _ => true
  | _ => false

/-- Is an event a `study.tell`? -/
def isTold : Event → Bool
  | .told _ _ _ => true
  | _ => false

/-- Number of durable per-tell appends in an event trace. -/
def appendCount (evs : List Event) : Nat := evs.countP isDurableAppend

/-- Number of csv exports in an event trace. -/
def exportCount (evs : List Event) : Nat := evs.countP isExport

/-- Number of `study.tell` calls in an event trace. -/
def tellCount (evs : List Event) : Nat := evs.countP isTold

/-- Invariant satisfied by every ask the loop performs: its distributions
and suggested values are those of `Objective.__call__` applied to the
percentages of the workload observed when the call began, for some oracle
draw. -/
def AskInv (a : AskRecord) : Prop :=
  ∃ pcts d, a.observed.to_workload_percentages = .ok pcts ∧
    a.dists = askDistributions pcts ∧ a.params = suggestParams pcts d

/-! Concrete fixtures used by witnesses and counterexamples. -/

/-- A constant oracle: every float draw 0, first categorical choice,
lowest integer draw. -/
def oracle0 : Nat → OracleDraw := fun _ => ⟨0, 0, 0, 0, 0, 0, 0, 0⟩

/-- An oracle whose categorical draw is `k`. -/
def oracleCat (k : Nat) : Nat → OracleDraw := fun _ => ⟨0, 0, 0, 0, 0, 0, k, 0⟩

/-- A telemetry message: 10 inserts, 10 point queries, latencies 100 and
200. -/
def wmsg1 : String := "10,0,0,0,10,0;100:0:0:0:200:0"

/-- The workload decoded from `wmsg1`. -/
def wEx1 : Workload := ⟨10, 0, 0, 0, 10, 0, 100, 0, 0, 0, 200, 0⟩

/-- A second telemetry message with total latency 100. -/
def wmsg2 : String := "20,0,0,0,20,0;50:0:0:0:50:0"

/-- The workload decoded from `wmsg2`. -/
def wEx2 : Workload := ⟨20, 0, 0, 0, 20, 0, 50, 0, 0, 0, 50, 0⟩

/-- The percentage tuple of both `wEx1` and `wEx2`. -/
def pctsHalf : ℚ × ℚ × ℚ × ℚ × ℚ × ℚ := (1/2, 0, 1/2, 0, 0, 0)

/-- A workload with one of each operation and zero latencies. -/
def wUnif : Workload := ⟨1, 1, 1, 1, 1, 1, 0, 0, 0, 0, 0, 0⟩

/-- The all-zero-counts workload (decoded from
`"0,0,0,0,0,0;1:1:1:1:1:1"`). -/
def wZero : Workload := ⟨0, 0, 0, 0, 0, 0, 1, 1, 1, 1, 1, 1⟩

/-! Evaluation lemmas for the concrete fixtures. -/

lemma from_str_wmsg1 : Workload.from_str wmsg1 = some wEx1 := by decide

lemma from_str_wmsg2 : Workload.from_str wmsg2 = some wEx2 := by decide

lemma pcts_wEx1 : wEx1.to_workload_percentages = .ok pctsHalf := by
  norm_num [Workload.to_workload_percentages, Workload.total_ops, wEx1, pctsHalf,
    round1, rndHalfEven]

lemma pcts_wEx2 : wEx2.to_workload_percentages = .ok pctsHalf := by
  norm_num [Workload.to_workload_percentages, Workload.total_ops, wEx2, pctsHalf,
    round1, rndHalfEven]

lemma lat_wEx2 : wEx2.total_latency = 100 := by
  norm_num [Workload.total_latency, wEx2]

/-! Unfolding lemmas for one iteration of `sessionLoop`, one per branch of
`Objective.__call__`. -/

lemma sessionLoop_err {w : Workload} {e : PyError} (oracle : Nat → OracleDraw)
    (script : List String) (hist : List StudyTrial) (evs : List Event)
    (asks : List AskRecord) (h : w.to_workload_percentages = .error e) :
    sessionLoop oracle script w hist evs asks = ⟨hist, evs, asks, .crashed e, script⟩ := by
  cases script <;> simp [sessionLoop, h]

lemma sessionLoop_nil {w : Workload} {pcts : ℚ × ℚ × ℚ × ℚ × ℚ × ℚ}
    (oracle : Nat → OracleDraw) (hist : List StudyTrial) (evs : List Event)
    (asks : List AskRecord) (h : w.to_workload_percentages = .ok pcts) :
    sessionLoop oracle [] w hist evs asks =
      ⟨hist, evs ++ [.sent (configMessage (suggestParams pcts (oracle hist.length)))],
       asks ++ [⟨w, askDistributions pcts, suggestParams pcts (oracle hist.length)⟩],
       .blocked, []⟩ := by
  simp [sessionLoop, h]

lemma sessionLoop_end {w : Workload} {pcts : ℚ × ℚ × ℚ × ℚ × ℚ × ℚ}
    (oracle : Nat → OracleDraw) (rest : List String) (hist : List StudyTrial)
    (evs : List Event) (asks : List AskRecord)
    (h : w.to_workload_percentages = .ok pcts) :
    sessionLoop oracle ("end" :: rest) w hist evs asks =
      ⟨hist,
       (evs ++ [.sent (configMessage (suggestParams pcts (oracle hist.length)))]) ++
         [.exported hist],
       asks ++ [⟨w, askDistributions pcts, suggestParams pcts (oracle hist.length)⟩],
       .cleanEnd, rest⟩ := by
  simp [sessionLoop, h]

lemma sessionLoop_bad {w : Workload} {pcts : ℚ × ℚ × ℚ × ℚ × ℚ × ℚ} {msg : String}
    (oracle : Nat → OracleDraw) (rest : List String) (hist : List StudyTrial)
    (evs : List Event) (asks : List AskRecord)
    (h : w.to_workload_percentages = .ok pcts) (hend : msg ≠ "end")
    (hbad : Workload.from_str msg = none) :
    sessionLoop oracle (msg :: rest) w hist evs asks =
      ⟨hist, evs ++ [.sent (configMessage (suggestParams pcts (oracle hist.length)))],
       asks ++ [⟨w, askDistributions pcts, suggestParams pcts (oracle hist.length)⟩],
       .crashed .valueError, rest⟩ := by
  simp [sessionLoop, h, hend, hbad]

lemma sessionLoop_step {w w2 : Workload} {pcts : ℚ × ℚ × ℚ × ℚ × ℚ × ℚ} {msg : String}
    (oracle : Nat → OracleDraw) (rest : List String) (hist : List StudyTrial)
    (evs : List Event) (asks : List AskRecord)
    (h : w.to_workload_percentages = .ok pcts) (hend : msg ≠ "end")
    (hw : Workload.from_str msg = some w2) :
    sessionLoop oracle (msg :: rest) w hist evs asks =
      sessionLoop oracle rest w2
        (hist ++ [⟨hist.length, w2.total_latency,
          liveParams (suggestParams pcts (oracle hist.length)), askDistributions pcts, true⟩])
        ((evs ++ [.sent (configMessage (suggestParams pcts (oracle hist.length)))]) ++
          [.told hist.length (suggestParams pcts (oracle hist.length)) w2.total_latency])
        (asks ++ [⟨w, askDistributions pcts, suggestParams pcts (oracle hist.length)⟩]) := by
  conv_lhs => rw [sessionLoop]
  simp [h, hend, hw]

/-! General lemmas about the loop, shared by several claims. -/

/-- The deviation of round-half-to-even from its argument is at most a
half. -/
lemma rndHalfEven_near (q : ℚ) : |(rndHalfEven q : ℚ) - q| ≤ 1 / 2 := by
  have h1 : (⌊q⌋ : ℚ) ≤ q := Int.floor_le q
  have h2 : q < ⌊q⌋ + 1 := Int.lt_floor_add_one q
  unfold rndHalfEven
  split
  · rename_i hc
    rw [abs_le]
    constructor <;> linarith
  · rename_i hc
    have hc' : 1 / 2 ≤ q - ⌊q⌋ := by linarith [not_lt.mp hc]
    split
    · rename_i hc2
      rw [abs_le]
      push_cast
      constructor <;> linarith
    · rename_i hc2
      have hc2' : q - ⌊q⌋ ≤ 1 / 2 := not_lt.mp hc2
      split <;> (rw [abs_le]; push_cast; constructor <;> linarith)

/-- Rounding to one decimal moves a rational by at most `1/20`. -/
lemma round1_near (x : ℚ) : |round1 x - x| ≤ 1 / 20 := by
  have h := rndHalfEven_near (10 * x)
  unfold round1
  have heq : (rndHalfEven (10 * x) : ℚ) / 10 - x = ((rndHalfEven (10 * x) : ℚ) - 10 * x) / 10 := by
    ring
  rw [heq, abs_div]
  rw [abs_of_pos (by norm_num : (0 : ℚ) < 10)]
  linarith

/-- A pinned float parameter is forced to its bound: when the lower and
upper bounds coincide, `suggest_float` returns that bound whatever the
sampler draws. -/
lemma suggest_float_pin (x d : ℚ) : suggest_float x x d = x := by
  simp [suggest_float]

/-- `suggest_categorical` over the memtable enumeration always returns one
of the four variants, whatever the sampler draws. -/
lemma suggest_categorical_mem (d : Nat) :
    suggest_categorical memtableChoices d ∈ memtableChoices := by
  have hd : d % 4 < 4 := Nat.mod_lt _ (by norm_num)
  unfold suggest_categorical memtableChoices
  interval_cases h : d % 4 <;> simp_all

/-- `suggest_int 24 28` always returns an exponent in `[24, 28]`, whatever
the sampler draws. -/
lemma suggest_int_range (d : Nat) :
    24 ≤ suggest_int 24 28 d ∧ suggest_int 24 28 d ≤ 28 := by
  unfold suggest_int
  have : d % (((28 : ℤ) - 24 + 1).toNat) < 5 := Nat.mod_lt _ (by norm_num)
  omega

/-- Every ask record the loop emits satisfies `AskInv`, provided the
accumulator does. -/
lemma sessionLoop_asks_inv (oracle : Nat → OracleDraw) (script : List String) :
    ∀ (w : Workload) (hist : List StudyTrial) (evs : List Event) (asks : List AskRecord),
      (∀ a ∈ asks, AskInv a) →
      ∀ a ∈ (sessionLoop oracle script w hist evs asks).asks, AskInv a := by
  induction script with
  | nil =>
    intro w hist evs asks hInv a ha
    cases h : w.to_workload_percentages with
    | error e =>
      rw [sessionLoop_err oracle [] hist evs asks h] at ha
      exact hInv a ha
    | ok pcts =>
      rw [sessionLoop_nil oracle hist evs asks h] at ha
      simp only [List.mem_append, List.mem_singleton] at ha
      rcases ha with ha | rfl
      · exact hInv a ha
      · exact ⟨pcts, oracle hist.length, h, rfl, rfl⟩
  | cons msg rest ih =>
    intro w hist evs asks hInv a ha
    cases h : w.to_workload_percentages with
    | error e =>
      rw [sessionLoop_err oracle _ hist evs asks h] at ha
      exact hInv a ha
    | ok pcts =>
      by_cases hend : msg = "end"
      · subst hend
        rw [sessionLoop_end oracle rest hist evs asks h] at ha
        simp only [List.mem_append, List.mem_singleton] at ha
        rcases ha with ha | rfl
        · exact hInv a ha
        · exact ⟨pcts, oracle hist.length, h, rfl, rfl⟩
      · cases hw : Workload.from_str msg with
        | none =>
          rw [sessionLoop_bad oracle rest hist evs asks h hend hw] at ha
          simp only [List.mem_append, List.mem_singleton] at ha
          rcases ha with ha | rfl
          · exact hInv a ha
          · exact ⟨pcts, oracle hist.length, h, rfl, rfl⟩
        | some w2 =>
          rw [sessionLoop_step oracle rest hist evs asks h hend hw] at ha
          refine ih w2 _ _ _ ?_ a ha
          intro x hx
          simp only [List.mem_append, List.mem_singleton] at hx
          rcases hx with hx | rfl
          · exact hInv x hx
          · exact ⟨pcts, oracle hist.length, h, rfl, rfl⟩

/-- Event accounting for the loop: it never emits a durable per-tell
append; it emits exactly one export, and only when it ends cleanly, in
which case the export carries the final study history and is the last
event. -/
lemma sessionLoop_events (oracle : Nat → OracleDraw) (script : List String) :
    ∀ (w : Workload) (hist : List StudyTrial) (evs : List Event) (asks : List AskRecord),
      appendCount (sessionLoop oracle script w hist evs asks).events = appendCount evs ∧
      exportCount (sessionLoop oracle script w hist evs asks).events =
        exportCount evs +
          (if (sessionLoop oracle script w hist evs asks).stop = .cleanEnd then 1 else 0) ∧
      ((sessionLoop oracle script w hist evs asks).stop = .cleanEnd →
        Event.exported (sessionLoop oracle script w hist evs asks).hist ∈
          (sessionLoop oracle script w hist evs asks).events) := by
  induction script with
  | nil =>
    intro w hist evs asks
    cases h : w.to_workload_percentages with
    | error e =>
      rw [sessionLoop_err oracle [] hist evs asks h]
      simp
    | ok pcts =>
      rw [sessionLoop_nil oracle hist evs asks h]
      simp [appendCount, exportCount, List.countP_append, List.countP_cons,
        isDurableAppend, isExport]
  | cons msg rest ih =>
    intro w hist evs asks
    cases h : w.to_workload_percentages with
    | error e =>
      rw [sessionLoop_err oracle _ hist evs asks h]
      simp
    | ok pcts =>
      by_cases hend : msg = "end"
      · subst hend
        rw [sessionLoop_end oracle rest hist evs asks h]
        simp [appendCount, exportCount, List.countP_append, List.countP_cons,
          isDurableAppend, isExport]
      · cases hw : Workload.from_str msg with
        | none =>
          rw [sessionLoop_bad oracle rest hist evs asks h hend hw]
          simp [appendCount, exportCount, List.countP_append, List.countP_cons,
            isDurableAppend, isExport]
        | some w2 =>
          rw [sessionLoop_step oracle rest hist evs asks h hend hw]
          have := ih w2
            (hist ++ [⟨hist.length, w2.total_latency,
              liveParams (suggestParams pcts (oracle hist.length)),
              askDistributions pcts, true⟩])
            ((evs ++ [.sent (configMessage (suggestParams pcts (oracle hist.length)))]) ++
              [.told hist.length (suggestParams pcts (oracle hist.length)) w2.total_latency])
            (asks ++ [⟨w, askDistributions pcts, suggestParams pcts (oracle hist.length)⟩])
          obtain ⟨h1, h2, h3⟩ := this
          refine ⟨?_, ?_, h3⟩
          · rw [h1]
            simp [appendCount, List.countP_append, List.countP_cons, isDurableAppend]
          · rw [h2]
            simp [exportCount, List.countP_append, List.countP_cons, isExport]

/-- `run_workload` either never reaches the loop (no first ask) or reaches
it with exactly the preloaded `./data.csv` trials as study history. -/
lemma run_workload_history (rows : List CsvRow) (oracle : Nat → OracleDraw)
    (script : List String) :
    (run_workload rows oracle script).1.historyAtFirstAsk = none ∨
    (run_workload rows oracle script).1.historyAtFirstAsk = some (preloadTrials rows) := by
  unfold run_workload
  cases script with
  | nil => simp
  | cons m0 rest0 =>
    by_cases h0 : m0 = "end"
    · simp [h0]
    · cases rest0 with
      | nil => simp [h0]
      | cons m1 rest1 =>
        by_cases h1 : m1 = "end"
        · simp [h0, h1]
        · cases hw : Workload.from_str m1 with
          | none => simp [h0, h1, hw]
          | some w0 => simp [h0, h1, hw]

/-- The loop only appends to the event trace it is given. -/
lemma sessionLoop_events_ext (oracle : Nat → OracleDraw) (script : List String) :
    ∀ (w : Workload) (hist : List StudyTrial) (evs : List Event) (asks : List AskRecord),
      ∃ t, (sessionLoop oracle script w hist evs asks).events = evs ++ t := by
  induction script with
  | nil =>
    intro w hist evs asks
    cases h : w.to_workload_percentages with
    | error e =>
      rw [sessionLoop_err oracle [] hist evs asks h]
      exact ⟨[], by simp⟩
    | ok pcts =>
      rw [sessionLoop_nil oracle hist evs asks h]
      exact ⟨_, rfl⟩
  | cons msg rest ih =>
    intro w hist evs asks
    cases h : w.to_workload_percentages with
    | error e =>
      rw [sessionLoop_err oracle _ hist evs asks h]
      exact ⟨[], by simp⟩
    | ok pcts =>
      by_cases hend : msg = "end"
      · subst hend
        rw [sessionLoop_end oracle rest hist evs asks h]
        exact ⟨[.sent (configMessage (suggestParams pcts (oracle hist.length))),
          .exported hist], by simp⟩
      · cases hw : Workload.from_str msg with
        | none =>
          rw [sessionLoop_bad oracle rest hist evs asks h hend hw]
          exact ⟨_, rfl⟩
        | some w2 =>
          rw [sessionLoop_step oracle rest hist evs asks h hend hw]
          obtain ⟨t, ht⟩ := ih w2
            (hist ++ [⟨hist.length, w2.total_latency,
              liveParams (suggestParams pcts (oracle hist.length)),
              askDistributions pcts, true⟩])
            ((evs ++ [.sent (configMessage (suggestParams pcts (oracle hist.length)))]) ++
              [.told hist.length (suggestParams pcts (oracle hist.length)) w2.total_latency])
            (asks ++ [⟨w, askDistributions pcts, suggestParams pcts (oracle hist.length)⟩])
          exact ⟨[.sent (configMessage (suggestParams pcts (oracle hist.length)))] ++
            ([.told hist.length (suggestParams pcts (oracle hist.length)) w2.total_latency] ++ t),
            by rw [ht]; simp⟩

/-- Started with an empty event trace, the loop's first event is the send
of the first trial's configuration. -/
lemma sessionLoop_first_event (oracle : Nat → OracleDraw) (script : List String)
    (w : Workload) (hist : List StudyTrial) (pcts : ℚ × ℚ × ℚ × ℚ × ℚ × ℚ)
    (h : w.to_workload_percentages = .ok pcts) :
    (sessionLoop oracle script w hist [] []).events.head? =
      some (.sent (configMessage (suggestParams pcts (oracle hist.length)))) := by
  cases script with
  | nil =>
    rw [sessionLoop_nil oracle hist [] [] h]
    simp
  | cons msg rest =>
    by_cases hend : msg = "end"
    · subst hend
      rw [sessionLoop_end oracle rest hist [] [] h]
      simp
    · cases hw : Workload.from_str msg with
      | none =>
        rw [sessionLoop_bad oracle rest hist [] [] h hend hw]
        simp
      | some w2 =>
        rw [sessionLoop_step oracle rest hist [] [] h hend hw]
        obtain ⟨t, ht⟩ := sessionLoop_events_ext oracle rest w2
          (hist ++ [⟨hist.length, w2.total_latency,
            liveParams (suggestParams pcts (oracle hist.length)),
            askDistributions pcts, true⟩])
          (([] ++ [.sent (configMessage (suggestParams pcts (oracle hist.length)))]) ++
            [.told hist.length (suggestParams pcts (oracle hist.length)) w2.total_latency])
          ([] ++ [⟨w, askDistributions pcts, suggestParams pcts (oracle hist.length)⟩])
        rw [ht]
        simp

/-- After a cleanly ended session, the outer `while True` loop runs a fresh
session on the rest of the engine script. -/
lemma runMain_clean (rows : List CsvRow) (oracle : Nat → OracleDraw) (fuel : Nat)
    (script : List String) (h : (run_workload rows oracle script).1.stop = .cleanEnd) :
    runMain rows oracle (fuel + 1) script =
      (run_workload rows oracle script).1 ::
        runMain rows oracle fuel (run_workload rows oracle script).2 := by
  simp only [runMain]
  rw [h]

/-- After a session whose `Objective.__init__` raised (the exception is
caught and `run_workload` returns), the outer loop runs a fresh session. -/
lemma runMain_initAborted (rows : List CsvRow) (oracle : Nat → OracleDraw) (fuel : Nat)
    (script : List String) (h : (run_workload rows oracle script).1.stop = .initAborted) :
    runMain rows oracle (fuel + 1) script =
      (run_workload rows oracle script).1 ::
        runMain rows oracle fuel (run_workload rows oracle script).2 := by
  simp only [runMain]
  rw [h]

/-- An exception that escapes the ask/tell loop is caught nowhere: it
propagates through `run_workload` and `__main__`, so no further session
runs. -/
lemma runMain_crash (rows : List CsvRow) (oracle : Nat → OracleDraw) (fuel : Nat)
    (script : List String) (e : PyError)
    (h : (run_workload rows oracle script).1.stop = .crashed e) :
    runMain rows oracle (fuel + 1) script = [(run_workload rows oracle script).1] := by
  simp only [runMain]
  rw [h]

/-- Every session the outer loop produces either never reached its first
ask or reached it with exactly the preloaded `./data.csv` trials. -/
lemma runMain_history (rows : List CsvRow) (oracle : Nat → OracleDraw) :
    ∀ (fuel : Nat) (script : List String), ∀ res ∈ runMain rows oracle fuel script,
      res.historyAtFirstAsk = none ∨
      res.historyAtFirstAsk = some (preloadTrials rows) := by
  intro fuel
  induction fuel with
  | zero =>
    intro script res h
    simp [runMain] at h
  | succ n ih =>
    intro script res h
    simp only [runMain] at h
    split at h
    · rcases List.mem_cons.mp h with rfl | h2
      · exact run_workload_history rows oracle script
      · exact ih _ res h2
    · rcases List.mem_cons.mp h with rfl | h2
      · exact run_workload_history rows oracle script
      · exact ih _ res h2
    · rcases List.mem_singleton.mp h with rfl
      exact run_workload_history rows oracle script
    · rcases List.mem_singleton.mp h with rfl
      exact run_workload_history rows oracle script

/-! Concrete run evaluations shared by witnesses and counterexamples. -/

/-- The parameters every `oracle0` trial suggests from half/half
percentages. -/
def tpHalf : TrialParams := suggestParams pctsHalf (oracle0 0)

/-- The configuration message of `tpHalf`. -/
def cfgHalf : String := configMessage tpHalf

/-- The first live trial told in the concrete runs below. -/
def trial0 : StudyTrial := ⟨0, 100, liveParams tpHalf, askDistributions pctsHalf, true⟩

/-- The first ask record of the concrete runs below. -/
def askA1 : AskRecord := ⟨wEx1, askDistributions pctsHalf, tpHalf⟩

/-- The second ask record of the concrete runs below. -/
def askA2 : AskRecord := ⟨wEx2, askDistributions pctsHalf, tpHalf⟩

lemma sessionA :
    sessionLoop oracle0 [wmsg2, "garbage"] wEx1 [] [] [] =
      ⟨[trial0], [.sent cfgHalf, .told 0 tpHalf 100, .sent cfgHalf],
       [askA1, askA2], .crashed .valueError, []⟩ := by
  rw [sessionLoop_step oracle0 ["garbage"] [] [] [] pcts_wEx1 (by decide) from_str_wmsg2]
  rw [sessionLoop_bad oracle0 [] _ _ _ pcts_wEx2 (by decide) (by decide)]
  simp [trial0, askA1, askA2, tpHalf, cfgHalf, lat_wEx2, oracle0]

lemma sessionB :
    sessionLoop oracle0 [wmsg2, "end"] wEx1 [] [] [] =
      ⟨[trial0],
       [.sent cfgHalf, .told 0 tpHalf 100, .sent cfgHalf, .exported [trial0]],
       [askA1, askA2], .cleanEnd, []⟩ := by
  rw [sessionLoop_step oracle0 ["end"] [] [] [] pcts_wEx1 (by decide) from_str_wmsg2]
  rw [sessionLoop_end oracle0 [] _ _ _ pcts_wEx2]
  simp [trial0, askA1, askA2, tpHalf, cfgHalf, lat_wEx2, oracle0]

lemma runA_eval :
    run_workload [] oracle0 ["study1", wmsg1, wmsg2, "garbage"] =
      (⟨some "study1", some [], [trial0],
        [.sent cfgHalf, .told 0 tpHalf 100, .sent cfgHalf],
        [askA1, askA2], .crashed .valueError⟩, []) := by
  simp [run_workload, from_str_wmsg1, preloadTrials, sessionA,
    show wmsg1 ≠ "end" from by decide]

lemma runB_eval :
    run_workload [] oracle0 ["study1", wmsg1, wmsg2, "end"] =
      (⟨some "study1", some [], [trial0],
        [.sent cfgHalf, .told 0 tpHalf 100, .sent cfgHalf, .exported [trial0]],
        [askA1, askA2], .cleanEnd⟩, []) := by
  simp [run_workload, from_str_wmsg1, preloadTrials, sessionB,
    show wmsg1 ≠ "end" from by decide]

/-! The claims. -/

/-- C1, counterexample: the claim asserts that decoding the telemetry
message `"10,0,0,0,10,0;100,,,,200,"` succeeds; in the code
`Workload.from_str` splits the latencies segment on `":"` and feeds the
single resulting field `"100,,,,200,"` to `float`, which raises
`ValueError`, so decoding this message fails. -/
theorem C1_counterexample :
    Workload.from_str "10,0,0,0,10,0;100,,,,200," = none := by decide

/-- C1, amended: the latencies segment is six colon-separated single
numbers, not six comma-separated sample lists, and an empty latency field
is a parse error, not zero samples.  Decoding the corresponding well-formed
message `"10,0,0,0,10,0;100:0:0:0:200:0"` succeeds with counts
`(10,0,0,0,10,0)`, total latency `300`, and percentages
`(0.5, 0, 0.5, 0, 0, 0)` in the return order of
`to_workload_percentages` (inserts, updates, point_queries, range_queries,
point_deletes, range_deletes). -/
theorem C1_amended :
    Workload.from_str "10,0,0,0,10,0;100:0:0:0:200:0" =
      some ⟨10, 0, 0, 0, 10, 0, 100, 0, 0, 0, 200, 0⟩ ∧
    Workload.total_latency ⟨10, 0, 0, 0, 10, 0, 100, 0, 0, 0, 200, 0⟩ = 300 ∧
    Workload.to_workload_percentages ⟨10, 0, 0, 0, 10, 0, 100, 0, 0, 0, 200, 0⟩ =
      .ok (1/2, 0, 1/2, 0, 0, 0) ∧
    Workload.from_str "10,0,0,0,10,0;100::::200:" = none := by
  refine ⟨by decide, ?_, ?_, by decide⟩
  · norm_num [Workload.total_latency]
  · exact pcts_wEx1

/-- C2: a zero-total workload makes `to_workload_percentages` fail, but
with the builtin `ZeroDivisionError` of the division on main.py line 64.
The claim (and spec §4.2/§7, which flags this as a known gap in the
source) requires an explicit `UndefinedWorkloadError`; no such error type
exists anywhere in the code. -/
theorem C2_zero_workload_division :
    (Workload.from_str "0,0,0,0,0,0;1:1:1:1:1:1").map Workload.to_workload_percentages =
      some (.error .zeroDivisionError) := by
  have h : Workload.from_str "0,0,0,0,0,0;1:1:1:1:1:1" = some wZero := by decide
  rw [h]
  norm_num [Option.map, Workload.to_workload_percentages, Workload.total_ops, wZero]

/-- C5, counterexample: the workload with one of each operation has
`totalOps = 6 > 0`, each percentage `round(1/6, 1) = 0.2`, and percentage
sum `1.2`, which is outside the claimed interval `[0.9, 1.1]`. -/
theorem C5_counterexample :
    0 < wUnif.total_ops ∧
    wUnif.to_workload_percentages = .ok (1/5, 1/5, 1/5, 1/5, 1/5, 1/5) ∧
    psum (1/5, 1/5, 1/5, 1/5, 1/5, 1/5) = 6/5 ∧
    ¬(9/10 ≤ psum (1/5, 1/5, 1/5, 1/5, 1/5, 1/5) ∧
      psum (1/5, 1/5, 1/5, 1/5, 1/5, 1/5) ≤ 11/10) := by
  refine ⟨by norm_num [Workload.total_ops, wUnif], ?_, by norm_num [psum], ?_⟩
  · norm_num [Workload.to_workload_percentages, Workload.total_ops, wUnif,
      round1, rndHalfEven]
  · rw [not_and]
    intro h
    norm_num [psum]

/-- C5, amended: for every workload with positive `totalOps`, the sum of
the six percentages (each a 1-decimal rounding of a ratio, with the ratios
summing to exactly 1) lies in `[0.7, 1.3]`: each of the six roundings moves
its term by at most `1/20`. -/
theorem C5_amended (w : Workload) (p : ℚ × ℚ × ℚ × ℚ × ℚ × ℚ)
    (hpos : 0 < w.total_ops) (hp : w.to_workload_percentages = .ok p) :
    7/10 ≤ psum p ∧ psum p ≤ 13/10 := by
  have ht : w.total_ops ≠ 0 := ne_of_gt hpos
  unfold Workload.to_workload_percentages at hp
  rw [if_neg ht] at hp
  have hp' := (Except.ok.inj hp).symm
  subst hp'
  have hsum : w.inserts / w.total_ops + w.updates / w.total_ops +
      w.point_queries / w.total_ops + w.range_queries / w.total_ops +
      w.point_deletes / w.total_ops + w.range_deletes / w.total_ops = 1 := by
    rw [div_add_div_same, div_add_div_same, div_add_div_same, div_add_div_same,
      div_add_div_same]
    have hn : w.inserts + w.updates + w.point_queries + w.range_queries +
        w.point_deletes + w.range_deletes = w.total_ops := rfl
    rw [hn]
    exact div_self ht
  have b1 := round1_near (w.inserts / w.total_ops)
  have b2 := round1_near (w.updates / w.total_ops)
  have b3 := round1_near (w.point_queries / w.total_ops)
  have b4 := round1_near (w.range_queries / w.total_ops)
  have b5 := round1_near (w.point_deletes / w.total_ops)
  have b6 := round1_near (w.range_deletes / w.total_ops)
  rw [abs_le] at b1 b2 b3 b4 b5 b6
  unfold psum
  constructor <;> simp only [] <;> push_cast <;>
    [nlinarith [b1.1, b2.1, b3.1, b4.1, b5.1, b6.1];
     nlinarith [b1.2, b2.2, b3.2, b4.2, b5.2, b6.2]]

/-- C5, witness: the amended bound instantiated on a concrete workload with
half inserts and half point queries, whose percentage sum is exactly 1. -/
theorem C5_witness : 7/10 ≤ psum pctsHalf ∧ psum pctsHalf ≤ 13/10 :=
  C5_amended wEx1 pctsHalf (by norm_num [Workload.total_ops, wEx1]) pcts_wEx1

/-- C3: when `"end"` arrives at a point in the Running loop where a
telemetry reply is expected, `Objective.__call__` returns `(0.0, True)`,
the loop breaks with no exception: the session stops with `cleanEnd` (not
`crashed`), the study history is unchanged (the in-flight trial is never
told: no `tell` event is added), and the csv export of the trial history is
emitted within the session, before control returns to the outer restart
loop. -/
theorem C3_end_token_terminates (oracle : Nat → OracleDraw) (rest : List String)
    (w : Workload) (hist : List StudyTrial) (evs : List Event) (asks : List AskRecord)
    (pcts : ℚ × ℚ × ℚ × ℚ × ℚ × ℚ) (h : w.to_workload_percentages = .ok pcts) :
    (sessionLoop oracle ("end" :: rest) w hist evs asks).stop = .cleanEnd ∧
    (sessionLoop oracle ("end" :: rest) w hist evs asks).hist = hist ∧
    tellCount (sessionLoop oracle ("end" :: rest) w hist evs asks).events = tellCount evs ∧
    Event.exported hist ∈ (sessionLoop oracle ("end" :: rest) w hist evs asks).events := by
  rw [sessionLoop_end oracle rest hist evs asks h]
  refine ⟨rfl, rfl, ?_, by simp⟩
  simp [tellCount, List.countP_append, List.countP_cons, isTold]

/-- C3, witness: the termination behaviour on a concrete session state. -/
theorem C3_witness :
    (sessionLoop oracle0 ["end"] wEx1 [] [] []).stop = .cleanEnd ∧
    (sessionLoop oracle0 ["end"] wEx1 [] [] []).hist = [] ∧
    tellCount (sessionLoop oracle0 ["end"] wEx1 [] [] []).events = tellCount [] ∧
    Event.exported [] ∈ (sessionLoop oracle0 ["end"] wEx1 [] [] []).events :=
  C3_end_token_terminates oracle0 [] wEx1 [] [] [] pctsHalf pcts_wEx1

/-- C4: every ask of a session declares the six operation-percentage
dimensions as pinned float parameters whose lower bound equals upper bound
equals the corresponding percentage of the workload observed immediately
before the ask (the workload `self.workload` held when `Objective.__call__`
begins), and — whatever the sampler draws — the suggested value of each
of those six parameters equals that percentage. -/
theorem C4_pinned_percentages (oracle : Nat → OracleDraw) (script : List String)
    (w : Workload) (hist : List StudyTrial) (a : AskRecord)
    (ha : a ∈ (sessionLoop oracle script w hist [] []).asks)
    (p1 p2 p3 p4 p5 p6 : ℚ)
    (hp : a.observed.to_workload_percentages = .ok (p1, p2, p3, p4, p5, p6)) :
    a.dists = [("inserts", .floatD p1 p1), ("updates", .floatD p2 p2),
               ("point_deletes", .floatD p5 p5), ("range_deletes", .floatD p6 p6),
               ("point_queries", .floatD p3 p3), ("range_queries", .floatD p4 p4),
               ("memtable", .catD memtableChoices), ("memtable_size", .intD 24 28)] ∧
    a.params.inserts = p1 ∧ a.params.updates = p2 ∧ a.params.point_queries = p3 ∧
    a.params.range_queries = p4 ∧ a.params.point_deletes = p5 ∧
    a.params.range_deletes = p6 := by
  obtain ⟨pcts, d, hobs, hdists, hparams⟩ :=
    sessionLoop_asks_inv oracle script w hist [] [] (by simp) a ha
  rw [hobs] at hp
  have hpc := Except.ok.inj hp
  subst hpc
  refine ⟨by rw [hdists]; rfl, ?_, ?_, ?_, ?_, ?_, ?_⟩ <;>
    rw [hparams] <;> simp [suggestParams, suggest_float_pin]

/-- C4, witness: the pinning property on the single ask of a concrete
session. -/
theorem C4_witness :
    askA1.dists =
      [("inserts", .floatD (1/2) (1/2)), ("updates", .floatD 0 0),
       ("point_deletes", .floatD 0 0), ("range_deletes", .floatD 0 0),
       ("point_queries", .floatD (1/2) (1/2)), ("range_queries", .floatD 0 0),
       ("memtable", .catD memtableChoices), ("memtable_size", .intD 24 28)] ∧
    askA1.params.inserts = 1/2 ∧ askA1.params.updates = 0 ∧
    askA1.params.point_queries = 1/2 ∧ askA1.params.range_queries = 0 ∧
    askA1.params.point_deletes = 0 ∧ askA1.params.range_deletes = 0 :=
  C4_pinned_percentages oracle0 ["end"] wEx1 [] askA1
    (by rw [sessionLoop_end oracle0 [] [] [] [] pcts_wEx1]
        simp [askA1, tpHalf, oracle0])
    (1/2) 0 (1/2) 0 0 0 pcts_wEx1

/-- C6, counterexample: a concrete run in which the engine sends a
well-formed handshake and first telemetry, one good reply (successfully
told), then the unparseable reply `"garbage"`.  The claim says the session
transitions to `Terminated`, persists the accumulated trials and the outer
loop starts a fresh session; in the code the `ValueError` raised inside the
loop is caught nowhere, so — even with fuel for five sessions — exactly one
session runs, it stops as `crashed`, its one accumulated trial is never
exported (no export event), and no fresh session follows. -/
theorem C6_counterexample :
    runMain [] oracle0 5 ["study1", wmsg1, wmsg2, "garbage"] =
      [⟨some "study1", some [], [trial0],
        [.sent cfgHalf, .told 0 tpHalf 100, .sent cfgHalf],
        [askA1, askA2], .crashed .valueError⟩] ∧
    tellCount [Event.sent cfgHalf, .told 0 tpHalf 100, .sent cfgHalf] = 1 ∧
    exportCount [Event.sent cfgHalf, .told 0 tpHalf 100, .sent cfgHalf] = 0 := by
  refine ⟨?_, by simp [tellCount, List.countP_cons, isTold],
    by simp [exportCount, List.countP_cons, isExport]⟩
  have h := runMain_crash [] oracle0 4 ["study1", wmsg1, wmsg2, "garbage"] .valueError
    (by rw [runA_eval])
  rw [runA_eval] at h
  exact h

/-- C6, amended: an unparseable telemetry reply during the Running loop is
neither swallowed nor retried: the loop stops at once with an uncaught
`ValueError` (`crashed`), consuming nothing further and exporting nothing
(the accumulated trials are lost, not persisted), and the outer loop does
not start a fresh session — the process dies with the exception. -/
theorem C6_amended :
    (∀ (oracle : Nat → OracleDraw) (msg : String) (rest : List String) (w : Workload)
       (hist : List StudyTrial) (evs : List Event) (asks : List AskRecord)
       (pcts : ℚ × ℚ × ℚ × ℚ × ℚ × ℚ),
       w.to_workload_percentages = .ok pcts → msg ≠ "end" →
       Workload.from_str msg = none →
       sessionLoop oracle (msg :: rest) w hist evs asks =
         ⟨hist, evs ++ [.sent (configMessage (suggestParams pcts (oracle hist.length)))],
          asks ++ [⟨w, askDistributions pcts, suggestParams pcts (oracle hist.length)⟩],
          .crashed .valueError, rest⟩) ∧
    (∀ (rows : List CsvRow) (oracle : Nat → OracleDraw) (fuel : Nat)
       (script : List String) (e : PyError),
       (run_workload rows oracle script).1.stop = .crashed e →
       runMain rows oracle (fuel + 1) script = [(run_workload rows oracle script).1]) :=
  ⟨fun oracle _ rest _ hist evs asks _ h hend hbad =>
     sessionLoop_bad oracle rest hist evs asks h hend hbad,
   fun rows oracle fuel script e h => runMain_crash rows oracle fuel script e h⟩

/-- C6, witness: the amended behaviour instantiated on concrete inputs. -/
theorem C6_witness :
    sessionLoop oracle0 ["garbage"] wEx1 [] [] [] =
      ⟨[], [.sent (configMessage (suggestParams pctsHalf (oracle0 0)))],
       [⟨wEx1, askDistributions pctsHalf, suggestParams pctsHalf (oracle0 0)⟩],
       .crashed .valueError, []⟩ ∧
    runMain [] oracle0 5 ["study1", wmsg1, wmsg2, "garbage"] =
      [(run_workload [] oracle0 ["study1", wmsg1, wmsg2, "garbage"]).1] :=
  ⟨C6_amended.1 oracle0 "garbage" [] wEx1 [] [] [] pctsHalf pcts_wEx1
     (by decide) (by decide),
   C6_amended.2 [] oracle0 4 ["study1", wmsg1, wmsg2, "garbage"] .valueError
     (by rw [runA_eval])⟩

/-- C7, counterexample: a concrete session with one successful `tell` and a
clean termination.  The claim says one durable record is appended to an
append-only log after every successful tell, before the next ask; in the
code the per-tell log writes (`output.write`/`output.flush`) are commented
out, so the session's event trace holds one tell and zero durable appends
(the only persistence is the single terminal csv export). -/
theorem C7_counterexample :
    tellCount (run_workload [] oracle0 ["study1", wmsg1, wmsg2, "end"]).1.events = 1 ∧
    appendCount (run_workload [] oracle0 ["study1", wmsg1, wmsg2, "end"]).1.events = 0 := by
  rw [runB_eval]
  constructor <;>
    simp [tellCount, appendCount, List.countP_cons, isTold, isDurableAppend]

/-- C7, amended: no durable per-tell record is ever appended during a
session; the only persistence is the terminal export: a session's event
trace holds zero durable appends, and exactly one export — carrying the
full final study history, emitted last — iff the session ended cleanly. -/
theorem C7_amended (oracle : Nat → OracleDraw) (script : List String) (w : Workload)
    (hist : List StudyTrial) :
    appendCount (sessionLoop oracle script w hist [] []).events = 0 ∧
    exportCount (sessionLoop oracle script w hist [] []).events =
      (if (sessionLoop oracle script w hist [] []).stop = .cleanEnd then 1 else 0) ∧
    ((sessionLoop oracle script w hist [] []).stop = .cleanEnd →
      Event.exported (sessionLoop oracle script w hist [] []).hist ∈
        (sessionLoop oracle script w hist [] []).events) := by
  have h := sessionLoop_events oracle script w hist [] []
  simpa [appendCount, exportCount] using h

/-- C7, witness: the amended persistence accounting on a concrete
session. -/
theorem C7_witness :
    appendCount (sessionLoop oracle0 [wmsg2, "end"] wEx1 [] [] []).events = 0 ∧
    exportCount (sessionLoop oracle0 [wmsg2, "end"] wEx1 [] [] []).events =
      (if (sessionLoop oracle0 [wmsg2, "end"] wEx1 [] [] []).stop = .cleanEnd
       then 1 else 0) ∧
    ((sessionLoop oracle0 [wmsg2, "end"] wEx1 [] [] []).stop = .cleanEnd →
      Event.exported (sessionLoop oracle0 [wmsg2, "end"] wEx1 [] [] []).hist ∈
        (sessionLoop oracle0 [wmsg2, "end"] wEx1 [] [] []).events) :=
  C7_amended oracle0 [wmsg2, "end"] wEx1 []

/-- The session run with categorical draw `k`, used to exhibit each of the
four variants being chosen. -/
lemma runC_eval (k : Nat) :
    run_workload [] (oracleCat k) ["study1", wmsg1, "end"] =
      (⟨some "study1", some [], [],
        [.sent (configMessage (suggestParams pctsHalf (oracleCat k 0))), .exported []],
        [⟨wEx1, askDistributions pctsHalf, suggestParams pctsHalf (oracleCat k 0)⟩],
        .cleanEnd⟩, []) := by
  simp [run_workload, from_str_wmsg1, preloadTrials,
    show wmsg1 ≠ "end" from by decide,
    sessionLoop_end (oracleCat k) [] [] [] [] pcts_wEx1]

/-- C8, counterexample: the claim says the integer size parameter is
declared only when the chosen variant requires sizing, and that otherwise
no size is part of the Configuration (the spec's Configuration wire format
is `"<variant>;<sizeOrEmpty>"`, with size optional).  In the code the
`suggest_int("memtable_size", 24, 28)` call is unconditional (the
`if memtable == "vector":` guard is commented out): for each of the four
variants, the single ask of a concrete session declares the size
distribution and sends a configuration that carries the size — the
size-free configuration the claim requires occurs for no variant. -/
theorem C8_counterexample :
    (sessionLoop (oracleCat 0) ["end"] wEx1 [] [] []).asks.map
        (fun a => (a.params.memtable, configMessage a.params,
                   a.dists.contains ("memtable_size", Dist.intD 24 28))) =
      [("vector", "vector;16777216", true)] ∧
    (sessionLoop (oracleCat 1) ["end"] wEx1 [] [] []).asks.map
        (fun a => (a.params.memtable, configMessage a.params,
                   a.dists.contains ("memtable_size", Dist.intD 24 28))) =
      [("skiplist", "skiplist;16777216", true)] ∧
    (sessionLoop (oracleCat 2) ["end"] wEx1 [] [] []).asks.map
        (fun a => (a.params.memtable, configMessage a.params,
                   a.dists.contains ("memtable_size", Dist.intD 24 28))) =
      [("hash-linklist", "hash-linklist;16777216", true)] ∧
    (sessionLoop (oracleCat 3) ["end"] wEx1 [] [] []).asks.map
        (fun a => (a.params.memtable, configMessage a.params,
                   a.dists.contains ("memtable_size", Dist.intD 24 28))) =
      [("hash-skiplist", "hash-skiplist;16777216", true)] := by
  refine ⟨?_, ?_, ?_, ?_⟩ <;>
    [rw [sessionLoop_end (oracleCat 0) [] [] [] [] pcts_wEx1];
     rw [sessionLoop_end (oracleCat 1) [] [] [] [] pcts_wEx1];
     rw [sessionLoop_end (oracleCat 2) [] [] [] [] pcts_wEx1];
     rw [sessionLoop_end (oracleCat 3) [] [] [] [] pcts_wEx1]] <;>
    decide

/-- C8, amended: every ask declares the categorical parameter over exactly
the four-variant enumeration and — unconditionally, whatever variant the
sampler picks — the integer size parameter over the exponent range
`[24, 28]`; the chosen variant is always one of the four, the chosen
exponent always lies in `[24, 28]`, and the configuration sent always
carries the size `2 ^ exponent` after the variant. -/
theorem C8_amended (oracle : Nat → OracleDraw) (script : List String) (w : Workload)
    (hist : List StudyTrial) (a : AskRecord)
    (ha : a ∈ (sessionLoop oracle script w hist [] []).asks) :
    ("memtable", Dist.catD memtableChoices) ∈ a.dists ∧
    ("memtable_size", Dist.intD 24 28) ∈ a.dists ∧
    a.params.memtable ∈ memtableChoices ∧
    24 ≤ a.params.memtable_size ∧ a.params.memtable_size ≤ 28 ∧
    configMessage a.params =
      a.params.memtable ++ ";" ++ toString (2 ^ a.params.memtable_size.toNat) := by
  obtain ⟨pcts, d, hobs, hdists, hparams⟩ :=
    sessionLoop_asks_inv oracle script w hist [] [] (by simp) a ha
  refine ⟨?_, ?_, ?_, ?_, ?_, rfl⟩
  · rw [hdists]; simp [askDistributions]
  · rw [hdists]; simp [askDistributions]
  · rw [hparams]; simpa [suggestParams] using suggest_categorical_mem d.catDraw
  · rw [hparams]; exact (suggest_int_range d.intDraw).1
  · rw [hparams]; exact (suggest_int_range d.intDraw).2

/-- The ask record of the `oracleCat 2` session. -/
def askC2 : AskRecord := ⟨wEx1, askDistributions pctsHalf, suggestParams pctsHalf (oracleCat 2 0)⟩

/-- C8, witness: the amended free-dimension properties on a concrete ask
that chooses the third variant. -/
theorem C8_witness :
    ("memtable", Dist.catD memtableChoices) ∈ askC2.dists ∧
    ("memtable_size", Dist.intD 24 28) ∈ askC2.dists ∧
    askC2.params.memtable ∈ memtableChoices ∧
    24 ≤ askC2.params.memtable_size ∧ askC2.params.memtable_size ≤ 28 ∧
    configMessage askC2.params =
      askC2.params.memtable ++ ";" ++ toString (2 ^ askC2.params.memtable_size.toNat) :=
  C8_amended (oracleCat 2) ["end"] wEx1 [] askC2
    (by rw [sessionLoop_end (oracleCat 2) [] [] [] [] pcts_wEx1]
        simp [askC2])

/-- C9, counterexample: the claim says that after the engine's initial
message the tuner sends back a fixed "acknowledge" token before any other
message.  In the code `Objective.__init__` sends nothing: the first message
the tuner ever sends is the first trial's configuration, which is not a
fixed token — under two different sampler draws the session's first sent
message differs. -/
theorem C9_counterexample :
    (run_workload [] (oracleCat 0) ["study1", wmsg1, "end"]).1.events.head? =
      some (.sent "vector;16777216") ∧
    (run_workload [] (oracleCat 1) ["study1", wmsg1, "end"]).1.events.head? =
      some (.sent "skiplist;16777216") := by
  rw [runC_eval 0, runC_eval 1]
  exact ⟨by decide, by decide⟩

/-- C9, amended: during Handshaking the tuner only receives (a study-name
message, then a telemetry message) and sends nothing; a termination token
as the first or as the second message raises an exception that
`run_workload` catches, aborting the session with nothing sent, no ask and
no export; the outer loop then starts a brand-new session (the handshake is
not retried within the session); and when the handshake succeeds the first
message the tuner sends is the first trial's configuration. -/
theorem C9_amended :
    (∀ (rows : List CsvRow) (oracle : Nat → OracleDraw) (script : List String),
       run_workload rows oracle ("end" :: script) =
         (⟨none, none, [], [], [], .initAborted⟩, script)) ∧
    (∀ (rows : List CsvRow) (oracle : Nat → OracleDraw) (name : String)
       (script : List String), name ≠ "end" →
       run_workload rows oracle (name :: "end" :: script) =
         (⟨some name, none, [], [], [], .initAborted⟩, script)) ∧
    (∀ (rows : List CsvRow) (oracle : Nat → OracleDraw) (fuel : Nat)
       (script : List String),
       (run_workload rows oracle script).1.stop = .initAborted →
       runMain rows oracle (fuel + 1) script =
         (run_workload rows oracle script).1 ::
           runMain rows oracle fuel (run_workload rows oracle script).2) ∧
    (∀ (rows : List CsvRow) (oracle : Nat → OracleDraw) (m0 m1 : String)
       (rest : List String) (w0 : Workload) (pcts : ℚ × ℚ × ℚ × ℚ × ℚ × ℚ),
       m0 ≠ "end" → Workload.from_str m1 = some w0 →
       w0.to_workload_percentages = .ok pcts →
       (run_workload rows oracle (m0 :: m1 :: rest)).1.events.head? =
         some (.sent (configMessage
           (suggestParams pcts (oracle (preloadTrials rows).length))))) := by
  refine ⟨?_, ?_, ?_, ?_⟩
  · intro rows oracle script
    simp [run_workload]
  · intro rows oracle name script hne
    simp [run_workload, hne]
  · intro rows oracle fuel script h
    exact runMain_initAborted rows oracle fuel script h
  · intro rows oracle m0 m1 rest w0 pcts h0 hw hp
    have h1 : m1 ≠ "end" := by
      intro he
      rw [he, show Workload.from_str "end" = none from by decide] at hw
      cases hw
    have hr : (run_workload rows oracle (m0 :: m1 :: rest)).1.events =
        (sessionLoop oracle rest w0 (preloadTrials rows) [] []).events := by
      simp [run_workload, h0, h1, hw]
    rw [hr]
    exact sessionLoop_first_event oracle rest w0 (preloadTrials rows) pcts hp

/-- C9, witness: the amended handshake behaviour on concrete inputs. -/
theorem C9_witness :
    run_workload [] oracle0 ("end" :: ["x"]) =
      (⟨none, none, [], [], [], .initAborted⟩, ["x"]) ∧
    run_workload [] oracle0 ("study1" :: "end" :: []) =
      (⟨some "study1", none, [], [], [], .initAborted⟩, []) ∧
    runMain [] oracle0 (0 + 1) ["end"] =
      (run_workload [] oracle0 ["end"]).1 ::
        runMain [] oracle0 0 (run_workload [] oracle0 ["end"]).2 ∧
    (run_workload [] oracle0 ("study1" :: wmsg1 :: ["end"])).1.events.head? =
      some (.sent (configMessage (suggestParams pctsHalf
        (oracle0 (preloadTrials []).length)))) :=
  ⟨C9_amended.1 [] oracle0 ["x"],
   C9_amended.2.1 [] oracle0 "study1" [] (by decide),
   C9_amended.2.2.1 [] oracle0 0 ["end"] (by simp [run_workload]),
   C9_amended.2.2.2 [] oracle0 "study1" wmsg1 ["end"] wEx1 pctsHalf
     (by decide) from_str_wmsg1 pcts_wEx1⟩

/-- C10: before the first ask of every session that reaches the loop, the
controller has appended one COMPLETE trial per row of `./data.csv` to the
study history, so the history at the first ask equals exactly the preloaded
trials, identically for every (restarted) session; each preloaded trial
carries only the `inserts` and `point_queries` percentage parameters, both
with a full-range `FloatDistribution(0,1)`, besides the memtable and size
parameters. -/
theorem C10_preload :
    (∀ (rows : List CsvRow) (oracle : Nat → OracleDraw) (fuel : Nat)
       (script : List String),
       ∀ res ∈ runMain rows oracle fuel script,
         res.historyAtFirstAsk = none ∨
         res.historyAtFirstAsk = some (preloadTrials rows)) ∧
    (∀ (i : Nat) (r : CsvRow),
       preloadTrial i r =
         ⟨i, r.value,
          [("inserts", .num r.params_inserts),
           ("point_queries", .num r.params_point_queries),
           ("memtable", .str r.params_memtable),
           ("memtable_size", .num (r.params_memtable_size : ℚ))],
          [("inserts", .floatD 0 1), ("point_queries", .floatD 0 1),
           ("memtable", .catD memtableChoices), ("memtable_size", .intD 24 28)],
          true⟩) :=
  ⟨fun rows oracle fuel script res h => runMain_history rows oracle fuel script res h,
   fun _ _ => rfl⟩

/-- A one-row `./data.csv`. -/
def rows0 : List CsvRow := [⟨100, 1/2, 1/2, "vector", 24⟩]

/-- The session result of a clean one-ask run preloaded with `rows0`. -/
def resW : SessionResult :=
  ⟨some "study1", some (preloadTrials rows0), preloadTrials rows0,
   [.sent (configMessage (suggestParams pctsHalf (oracle0 1))),
    .exported (preloadTrials rows0)],
   [⟨wEx1, askDistributions pctsHalf, suggestParams pctsHalf (oracle0 1)⟩],
   .cleanEnd⟩

lemma runW_eval : run_workload rows0 oracle0 ["study1", wmsg1, "end"] = (resW, []) := by
  have hs := sessionLoop_end oracle0 [] (preloadTrials rows0) [] [] pcts_wEx1
  have hlen : (preloadTrials rows0).length = 1 := by simp [preloadTrials, rows0]
  rw [hlen] at hs
  simp [run_workload, from_str_wmsg1, show wmsg1 ≠ "end" from by decide, hs, resW]

lemma runMain_rows0 :
    runMain rows0 oracle0 1 ["study1", wmsg1, "end"] = [resW] := by
  have h := runMain_clean rows0 oracle0 0 ["study1", wmsg1, "end"] (by rw [runW_eval]; rfl)
  rw [runW_eval] at h
  simpa [runMain] using h

/-- C10, witness: the preload property on a concrete session run with a
one-row csv. -/
theorem C10_witness :
    resW.historyAtFirstAsk = none ∨
    resW.historyAtFirstAsk = some (preloadTrials rows0) :=
  C10_preload.1 rows0 oracle0 1 ["study1", wmsg1, "end"] resW
    (by rw [runMain_rows0]; simp)

end MemtableDecider
